import Mathlib

/-!
Verification of the OpenGL version-string classifier of `utils.py`
(`GLParser`, `parse_runtime`, `parse_gl_versions`).

The Python regexes used by the source are simple enough to be embedded
directly as deterministic matching functions over `List Char`:

  * `opengl_version_re = \d+\.\d+(\.\d+)?`      → `openglMatchAt`
  * `compat_version_re = \d+\.\d+\.\d+\.\d+`    → `compatMatchAt` (via `comps4At`)
  * `mesa_version_re   = \d+\.\d+\.\d+`         → `mesaMatchAt` (via `comps3At`)
  * `intel_version_re  = INTEL-(\d+\.\d+\.\d+)` → `intelMatchAt`
  * `nvidia_version_re = NVIDIA (\d{3}\.\d+)`   → `nvidiaMatchAt`
  * `build_version_re  = Build (\d+\.\d+\.\d+\.\d+)` → `buildMatchAt`

Since in each pattern every `\d+` is immediately followed by a literal
(non-digit) character or the end of the pattern, Python's backtracking never
shortens a greedy digit run, so each pattern is equivalent to the
deterministic maximal-munch matcher written here.  `re.search` tries every
start position from the left and returns the first success, embedded as
`searchFirst`.  Python's `\d` also covers non-ASCII decimal digits; the
embedding uses ASCII digits, which is faithful on all inputs the claims are
about.
-/

/-- One step of matching: does `needle` occur as a literal prefix here?
Returns the rest of the haystack on success. -/
def matchLit : List Char → List Char → Option (List Char)
  | [], s => some s
  | _ :: _, [] => none
  | a :: t, b :: u => if a = b then matchLit t u else none

/-- Python's substring operator `needle in hay`: `needle` occurs (contiguously)
at some position of `hay`. -/
def containsSub (needle : List Char) : List Char → Bool
  | [] => (matchLit needle []).isSome
  | c :: rest => (matchLit needle (c :: rest)).isSome || containsSub needle rest

/-- Python's `needle in hay` on strings (case-sensitive, unanchored). -/
def hasSub (needle hay : String) : Bool :=
  containsSub needle.toList hay.toList

/-- Greedy `\d+`: the maximal non-empty leading digit run, with the rest of
the input; `none` when the input does not start with a digit. -/
def digits1 : List Char → Option (List Char × List Char)
  | [] => none
  | c :: rest =>
    if c.isDigit then
      match digits1 rest with
      | some (d, r) => some (c :: d, r)
      | none => some ([c], rest)
    else none

/-- `\d+\.\d+\.\d+` anchored at the start: three dot-separated digit runs,
returning the matched text and the rest. -/
def comps3At (s : List Char) : Option (List Char × List Char) :=
  match digits1 s with
  | some (d1, '.' :: s1) =>
    match digits1 s1 with
    | some (d2, '.' :: s2) =>
      match digits1 s2 with
      | some (d3, r) => some (d1 ++ '.' :: (d2 ++ '.' :: d3), r)
      | none => none
    | _ => none
  | _ => none

/-- `\d+\.\d+\.\d+\.\d+` anchored at the start: four dot-separated digit
runs, returning the matched text and the rest. -/
def comps4At (s : List Char) : Option (List Char × List Char) :=
  match digits1 s with
  | some (d1, '.' :: s1) =>
    match digits1 s1 with
    | some (d2, '.' :: s2) =>
      match digits1 s2 with
      | some (d3, '.' :: s3) =>
        match digits1 s3 with
        | some (d4, r) => some (d1 ++ '.' :: (d2 ++ '.' :: (d3 ++ '.' :: d4)), r)
        | none => none
      | _ => none
    | _ => none
  | _ => none

/-- `opengl_version_re = \d+\.\d+(\.\d+)?` anchored at the start; the
optional third component is taken greedily when present. -/
def openglMatchAt (s : List Char) : Option (List Char) :=
  match digits1 s with
  | some (d1, '.' :: s1) =>
    match digits1 s1 with
    | some (d2, s2) =>
      match s2 with
      | '.' :: s3 =>
        match digits1 s3 with
        | some (d3, _) => some (d1 ++ '.' :: (d2 ++ '.' :: d3))
        | none => some (d1 ++ '.' :: d2)
      | _ => some (d1 ++ '.' :: d2)
    | none => none
  | _ => none

/-- `mesa_version_re = \d+\.\d+\.\d+` anchored at the start (`group(0)`). -/
def mesaMatchAt (s : List Char) : Option (List Char) :=
  (comps3At s).map Prod.fst

/-- `compat_version_re = \d+\.\d+\.\d+\.\d+` anchored at the start
(`group(0)`). -/
def compatMatchAt (s : List Char) : Option (List Char) :=
  (comps4At s).map Prod.fst

/-- `intel_version_re = INTEL-(?P<version>\d+\.\d+\.\d+)` anchored at the
start; returns the captured numeric group. -/
def intelMatchAt (s : List Char) : Option (List Char) :=
  match matchLit "INTEL-".toList s with
  | some s1 => (comps3At s1).map Prod.fst
  | none => none

/-- `nvidia_version_re = NVIDIA (?P<version>\d{3}\.\d+)` anchored at the
start; returns the captured numeric group. -/
def nvidiaMatchAt (s : List Char) : Option (List Char) :=
  match matchLit "NVIDIA ".toList s with
  | some (a :: b :: c :: '.' :: s2) =>
    if a.isDigit && b.isDigit && c.isDigit then
      match digits1 s2 with
      | some (d, _) => some (a :: b :: c :: '.' :: d)
      | none => none
    else none
  | _ => none

/-- `build_version_re = Build (?P<version>\d+\.\d+\.\d+\.\d+)` anchored at
the start; returns the captured numeric group. -/
def buildMatchAt (s : List Char) : Option (List Char) :=
  match matchLit "Build ".toList s with
  | some s1 => (comps4At s1).map Prod.fst
  | none => none

/-- Python's `re.search`: try the anchored matcher at every start position
from the left and return the first success. -/
def searchFirst (m : List Char → Option (List Char)) : List Char → Option (List Char)
  | [] => m []
  | c :: rest =>
    match m (c :: rest) with
    | some r => some r
    | none => searchFirst m rest

/-- `OpenGLDescriptor = namedtuple('OpenGLDescriptor', ['version', 'driver',
'driver_version'])`; each field is either an extracted string or `None`. -/
structure OpenGLDescriptor where
  version : Option String
  driver : Option String
  driver_version : Option String
deriving DecidableEq

/-- The exceptions the embedded code can raise: `NotImplementedError` (from
`GLParser.parse`), `ValueError` (from `parse_runtime`) and `IndexError`
(from the `value.split()[i]` subscripts in the runtime helpers). -/
inductive PyError where
  | notImplementedError (msg : String)
  | valueError (msg : String)
  | indexError
deriving DecidableEq

/-- A Python float input.  `GLParser.parse` only ever uses a float through
`str(input)`, so the embedding carries that decimal text directly, together
with the fact — true of every Python float — that `str` of it is non-empty. -/
structure PyFloat where
  text : String
  text_ne : text ≠ ""

/-- The input domain of `GLParser.parse`: an integer, a float, or a string
(the dynamic `isinstance` dispatch of the source becomes a sum type). -/
inductive GLInput where
  | int (n : Int)
  | float (f : PyFloat)
  | str (s : String)

namespace GLParser

/-- `GLParser._opengl_version`: search the whole string with
`opengl_version_re`, returning `group(0)` or `None`. -/
def opengl_version (s : String) : Option String :=
  (searchFirst openglMatchAt s.toList).map String.mk

/-- `GLParser.parse_build_version`. -/
def parse_build_version (s : String) : OpenGLDescriptor :=
  { version := opengl_version s
    driver := some "build"
    driver_version := (searchFirst buildMatchAt s.toList).map String.mk }

/-- `GLParser.parse_nvidia`. -/
def parse_nvidia (s : String) : OpenGLDescriptor :=
  { version := opengl_version s
    driver := some "nvidia"
    driver_version := (searchFirst nvidiaMatchAt s.toList).map String.mk }

/-- `GLParser.parse_intel`. -/
def parse_intel (s : String) : OpenGLDescriptor :=
  { version := opengl_version s
    driver := some "intel"
    driver_version := (searchFirst intelMatchAt s.toList).map String.mk }

/-- `GLParser.parse_mesa`. -/
def parse_mesa (s : String) : OpenGLDescriptor :=
  { version := opengl_version s
    driver := some "mesa"
    driver_version := (searchFirst mesaMatchAt s.toList).map String.mk }

/-- `GLParser.parse_compatability_profile_context` (source spelling kept). -/
def parse_compatability_profile_context (s : String) : OpenGLDescriptor :=
  { version := opengl_version s
    driver := some "compat"
    driver_version := (searchFirst compatMatchAt s.toList).map String.mk }

/-- `GLParser.parse`: type dispatch, then the ordered substring checks, then
the generic fallback; raises `NotImplementedError` when nothing matches. -/
def parse : GLInput → Except PyError OpenGLDescriptor
  | .int n => .ok { version := some (toString n ++ ".0.0"), driver := none, driver_version := none }
  | .float f => .ok { version := some f.text, driver := none, driver_version := none }
  | .str s =>
    if hasSub "Compatibility Profile Context" s then .ok (parse_compatability_profile_context s)
    else if hasSub "Mesa" s then .ok (parse_mesa s)
    else if hasSub "NVIDIA" s then .ok (parse_nvidia s)
    else if hasSub "INTEL" s then .ok (parse_intel s)
    else if hasSub "Build" s then .ok (parse_build_version s)
    else
      match opengl_version s with
      | some v => .ok { version := some v, driver := some "generic", driver_version := none }
      | none => .error (.notImplementedError ("Unimplemented for " ++ s))

end GLParser

/-- `True` when the string contains none of the five family keywords of
`GLParser.parse`. -/
def keywordFree (s : String) : Bool :=
  !(hasSub "Compatibility Profile Context" s || hasSub "Mesa" s ||
    hasSub "NVIDIA" s || hasSub "INTEL" s || hasSub "Build" s)

/-- `parse_gl_versions` is a Python generator; its observable behaviour on a
finite input list is the list of descriptors produced before the first
failing element, together with the exception (if any) raised at that
element, after which the generator terminates. -/
def parse_gl_versions : List GLInput → List OpenGLDescriptor × Option PyError
  | [] => ([], none)
  | x :: rest =>
    match GLParser.parse x with
    | .ok d =>
      let p := parse_gl_versions rest
      (d :: p.1, p.2)
    | .error e => ([], some e)

/-- `Runtime = namedtuple('Runtime', ['provider', 'version'])`. -/
structure Runtime where
  provider : String
  version : String
deriving DecidableEq

/-- The whitespace characters recognised by Python's `str.split()` (ASCII
subset; the unicode ones do not occur in the inputs the claims are about). -/
def isSpaceChar (c : Char) : Bool :=
  c = ' ' || c = '\t' || c = '\n' || c = '\r' || c = '\x0b' || c = '\x0c'

/-- Worker for `splitWs`: `acc` holds the current token reversed. -/
def splitWsGo : List Char → List Char → List (List Char)
  | [], acc => if acc.isEmpty then [] else [acc.reverse]
  | c :: rest, acc =>
    if isSpaceChar c then
      if acc.isEmpty then splitWsGo rest [] else acc.reverse :: splitWsGo rest []
    else splitWsGo rest (c :: acc)

/-- Python's `str.split()` with no argument: split on whitespace runs,
discarding empty tokens. -/
def splitWs (s : List Char) : List (List Char) :=
  splitWsGo s []

/-- `parse_mono_runtime`: `value.split()[1]`; the subscript raises
`IndexError` when there is no second token. -/
def parse_mono_runtime (value : String) : Except PyError Runtime :=
  match (splitWs value.toList).get? 1 with
  | some v => .ok { provider := "mono", version := String.mk v }
  | none => .error .indexError

/-- `parse_dotnet_runtime`: `value.split()[2]`; the subscript raises
`IndexError` when there is no third token. -/
def parse_dotnet_runtime (value : String) : Except PyError Runtime :=
  match (splitWs value.toList).get? 2 with
  | some v => .ok { provider := ".net", version := String.mk v }
  | none => .error .indexError

/-- `parse_runtime`. -/
def parse_runtime (runtime : Option String) : Except PyError (Option Runtime) :=
  match runtime with
  | none => .ok none
  | some r =>
    if hasSub "Mono" r then (parse_mono_runtime r).map some
    else if hasSub ".NET" r then (parse_dotnet_runtime r).map some
    else .error (.valueError ("Invalid runtime value: " ++ r))

/-- Did `GLParser.parse` succeed on this input? -/
def parseOk (x : GLInput) : Bool :=
  match GLParser.parse x with
  | .ok _ => true
  | .error _ => false

/-- The value of a successful classification, `none` on failure. -/
def okPart : Except PyError OpenGLDescriptor → Option OpenGLDescriptor
  | .ok d => some d
  | .error _ => none

/-- Modelled from the spec: the batch driver "produces a lazy sequence of
Descriptors, one per input, in the same order, by applying the Classifier to
each", and "if `classify(b)` fails, the failure surfaces exactly when the
second element is pulled, not before" — i.e. the descriptors of the longest
all-successful prefix, followed by the error of the first failing element,
if any. -/
def classify_batch_spec (l : List GLInput) : List OpenGLDescriptor × Option PyError :=
  ((l.takeWhile parseOk).filterMap (fun x => okPart (GLParser.parse x)),
   match l.dropWhile parseOk with
   | [] => none
   | x :: _ =>
     match GLParser.parse x with
     | .error e => some e
     | .ok _ => none)

example : GLParser.parse (GLInput.str "4.6.0 Compatibility Profile Context 20.3.4.5") =
    .ok ⟨some "4.6.0", some "compat", some "20.3.4.5"⟩ := rfl

example : GLParser.parse (GLInput.str "3.3 (Core Profile) Mesa 21.2.6") =
    .ok ⟨some "3.3", some "mesa", some "21.2.6"⟩ := rfl

example : GLParser.parse (GLInput.str "4.5.0 NVIDIA 470.63") =
    .ok ⟨some "4.5.0", some "nvidia", some "470.63"⟩ := rfl

example : GLParser.parse (GLInput.str "3.1.0 - Build 26.20.100.7870") =
    .ok ⟨some "3.1.0", some "build", some "26.20.100.7870"⟩ := rfl

example : GLParser.parse (GLInput.str "4.1 INTEL-14.7.7") =
    .ok ⟨some "4.1", some "intel", some "14.7.7"⟩ := rfl

example : GLParser.parse (GLInput.str "totally unknown string") =
    .error (.notImplementedError ("Unimplemented for " ++ "totally unknown string")) := rfl

example : parse_runtime (some "Mono 6.12.0.122 (tarball)") =
    .ok (some ⟨"mono", "6.12.0.122"⟩) := rfl

example : parse_runtime (some ".NET Framework 4.8") =
    .ok (some ⟨".net", "4.8"⟩) := rfl

example : parse_runtime (some "Mono") = .error .indexError := rfl

/-! ### Helper lemmas about the searching combinator -/

lemma searchFirst_eq_of_first (m : List Char → Option (List Char)) :
    ∀ (l : List Char) (i : Nat) (r : List Char),
      m (l.drop i) = some r → (∀ j, j < i → m (l.drop j) = none) →
      searchFirst m l = some r := by
  intro l
  induction l with
  | nil =>
    intro i r hm _
    simpa [searchFirst] using hm
  | cons c rest ih =>
    intro i r hm hlt
    cases i with
    | zero =>
      simp only [List.drop_zero] at hm
      simp [searchFirst, hm]
    | succ k =>
      have h0 : m (c :: rest) = none := by
        have := hlt 0 (Nat.succ_pos k)
        simpa using this
      have hrest : searchFirst m rest = some r := by
        refine ih k r (by simpa using hm) ?_
        intro j hj
        have := hlt (j + 1) (Nat.succ_lt_succ hj)
        simpa using this
      simp [searchFirst, h0, hrest]

lemma searchFirst_eq_none_iff (m : List Char → Option (List Char)) :
    ∀ l : List Char, searchFirst m l = none ↔ ∀ i, m (l.drop i) = none := by
  intro l
  induction l with
  | nil =>
    constructor
    · intro h i
      simpa [List.drop_nil] using h
    · intro h
      simpa [searchFirst] using h 0
  | cons c rest ih =>
    cases hm : m (c :: rest) with
    | some r =>
      simp only [searchFirst, hm]
      constructor
      · intro h
        exact absurd h (by simp)
      · intro h
        have := h 0
        simp [hm] at this
    | none =>
      simp only [searchFirst, hm]
      constructor
      · intro h i
        cases i with
        | zero => simpa using hm
        | succ k => simpa using (ih.mp h) k
      · intro h
        exact ih.mpr (fun i => by simpa using h (i + 1))

lemma searchFirst_ne_nil (m : List Char → Option (List Char))
    (hm : ∀ t r, m t = some r → r ≠ []) :
    ∀ l r, searchFirst m l = some r → r ≠ [] := by
  intro l
  induction l with
  | nil => exact fun r h => hm [] r h
  | cons c rest ih =>
    intro r h
    cases hm0 : m (c :: rest) with
    | some r0 =>
      simp only [searchFirst, hm0, Option.some.injEq] at h
      exact h ▸ hm _ _ hm0
    | none =>
      simp only [searchFirst, hm0] at h
      exact ih r h

/-! ### Non-emptiness of every match the embedded regexes can produce -/

lemma digits1_ne_nil : ∀ (s d r : List Char), digits1 s = some (d, r) → d ≠ [] := by
  intro s d r h
  cases s with
  | nil => exact absurd h (by simp [digits1])
  | cons c t =>
    by_cases hc : c.isDigit
    · cases ht : digits1 t with
      | some p =>
        simp [digits1, hc, ht] at h
        simp [← h.1]
      | none =>
        simp [digits1, hc, ht] at h
        simp [← h.1]
    · simp [digits1, hc] at h

lemma comps3At_ne_nil : ∀ (s t r : List Char), comps3At s = some (t, r) → t ≠ [] := by
  intro s t r h
  unfold comps3At at h
  repeat' split at h
  all_goals (try (exact Option.noConfusion h))
  all_goals injection h with h1
  all_goals injection h1 with ha hb
  all_goals subst ha
  all_goals simp

lemma comps4At_ne_nil : ∀ (s t r : List Char), comps4At s = some (t, r) → t ≠ [] := by
  intro s t r h
  unfold comps4At at h
  repeat' split at h
  all_goals (try (exact Option.noConfusion h))
  all_goals injection h with h1
  all_goals injection h1 with ha hb
  all_goals subst ha
  all_goals simp

lemma openglMatchAt_ne_nil : ∀ (s r : List Char), openglMatchAt s = some r → r ≠ [] := by
  intro s r h
  unfold openglMatchAt at h
  repeat' split at h
  all_goals (try (exact Option.noConfusion h))
  all_goals injection h with h1
  all_goals subst h1
  all_goals simp

lemma mesaMatchAt_ne_nil : ∀ (s r : List Char), mesaMatchAt s = some r → r ≠ [] := by
  intro s r h
  unfold mesaMatchAt at h
  cases hc : comps3At s with
  | none => simp [hc] at h
  | some p =>
    rw [hc] at h
    simp at h
    exact h ▸ comps3At_ne_nil s p.1 p.2 (by simpa using hc)

lemma compatMatchAt_ne_nil : ∀ (s r : List Char), compatMatchAt s = some r → r ≠ [] := by
  intro s r h
  unfold compatMatchAt at h
  cases hc : comps4At s with
  | none => simp [hc] at h
  | some p =>
    rw [hc] at h
    simp at h
    exact h ▸ comps4At_ne_nil s p.1 p.2 (by simpa using hc)

lemma intelMatchAt_ne_nil : ∀ (s r : List Char), intelMatchAt s = some r → r ≠ [] := by
  intro s r h
  unfold intelMatchAt at h
  split at h
  · rename_i s1 _
    cases hc : comps3At s1 with
    | none => simp [hc] at h
    | some p =>
      rw [hc] at h
      simp at h
      exact h ▸ comps3At_ne_nil s1 p.1 p.2 (by simpa using hc)
  · exact absurd h (by simp)

lemma buildMatchAt_ne_nil : ∀ (s r : List Char), buildMatchAt s = some r → r ≠ [] := by
  intro s r h
  unfold buildMatchAt at h
  split at h
  · rename_i s1 _
    cases hc : comps4At s1 with
    | none => simp [hc] at h
    | some p =>
      rw [hc] at h
      simp at h
      exact h ▸ comps4At_ne_nil s1 p.1 p.2 (by simpa using hc)
  · exact absurd h (by simp)

lemma nvidiaMatchAt_ne_nil : ∀ (s r : List Char), nvidiaMatchAt s = some r → r ≠ [] := by
  intro s r h
  unfold nvidiaMatchAt at h
  repeat' split at h
  all_goals (try (exact Option.noConfusion h))
  all_goals injection h with h1
  all_goals subst h1
  all_goals simp

/-! ### Digit runs against concatenations (used for the version-inside-driver-version claim) -/

/-- `True` when the list does not start with a digit (so a maximal digit run
ends right before it). -/
def nondigitHead : List Char → Bool
  | [] => true
  | c :: _ => !c.isDigit

lemma digits1_eq_none_of_nondigit (s : List Char) (h : nondigitHead s = true) :
    digits1 s = none := by
  cases s with
  | nil => rfl
  | cons c r =>
    have hc : c.isDigit = false := by simpa [nondigitHead] using h
    simp [digits1, hc]

lemma digits1_cons_digit (c : Char) (hc : c.isDigit = true) (s : List Char) :
    digits1 (c :: s) =
      match digits1 s with
      | some (d, r) => some (c :: d, r)
      | none => some ([c], s) := by
  simp only [digits1, hc, if_true]

lemma digits1_append (d rest : List Char) (hne : d ≠ [])
    (hall : ∀ c ∈ d, c.isDigit = true) (hr : nondigitHead rest = true) :
    digits1 (d ++ rest) = some (d, rest) := by
  induction d with
  | nil => exact absurd rfl hne
  | cons a t ih =>
    have ha : a.isDigit = true := hall a (List.mem_cons_self a t)
    cases t with
    | nil =>
      have hnone := digits1_eq_none_of_nondigit rest hr
      rw [List.cons_append, List.nil_append, digits1_cons_digit a ha, hnone]
    | cons b t2 =>
      have ht : digits1 (b :: t2 ++ rest) = some (b :: t2, rest) := by
        refine ih (by simp) ?_
        intro c hc
        exact hall c (List.mem_cons_of_mem a hc)
      rw [List.cons_append, digits1_cons_digit a ha, ht]

lemma openglMatchAt_three (d1 d2 d3 rest : List Char)
    (h1 : d1 ≠ []) (ha1 : ∀ c ∈ d1, c.isDigit = true)
    (h2 : d2 ≠ []) (ha2 : ∀ c ∈ d2, c.isDigit = true)
    (h3 : d3 ≠ []) (ha3 : ∀ c ∈ d3, c.isDigit = true)
    (hr : nondigitHead rest = true) :
    openglMatchAt (d1 ++ '.' :: (d2 ++ '.' :: (d3 ++ rest))) =
      some (d1 ++ '.' :: (d2 ++ '.' :: d3)) := by
  have e1 := digits1_append d1 ('.' :: (d2 ++ '.' :: (d3 ++ rest))) h1 ha1 rfl
  have e2 := digits1_append d2 ('.' :: (d3 ++ rest)) h2 ha2 rfl
  have e3 := digits1_append d3 rest h3 ha3 hr
  simp [openglMatchAt, e1, e2, e3]

/-! ### Strings built by the classifier are never empty -/

lemma append_ne_empty (a b : String) (hb : b.data ≠ []) : a ++ b ≠ "" := by
  intro h
  apply hb
  have h2 : a.data ++ b.data = ([] : List Char) := congrArg String.data h
  exact (List.append_eq_nil.mp h2).2

lemma search_map_ne_empty (m : List Char → Option (List Char))
    (hm : ∀ t r, m t = some r → r ≠ []) (l : List Char) :
    (searchFirst m l).map String.mk ≠ some "" := by
  cases hsf : searchFirst m l with
  | none => simp
  | some r =>
    have hr : r ≠ [] := searchFirst_ne_nil m hm l r hsf
    simp only [Option.map_some', ne_eq, Option.some.injEq]
    intro hmk
    exact hr (congrArg String.data hmk)

lemma opengl_version_ne_empty (s : String) : GLParser.opengl_version s ≠ some "" :=
  search_map_ne_empty openglMatchAt openglMatchAt_ne_nil s.toList

/-! ### Case analysis of the classifier on string inputs -/

lemma parse_str_cases (s : String) :
    (keywordFree s = true ∧ GLParser.opengl_version s = none ∧
      GLParser.parse (GLInput.str s) =
        .error (.notImplementedError ("Unimplemented for " ++ s))) ∨
    ∃ d, GLParser.parse (GLInput.str s) = .ok d := by
  by_cases h1 : hasSub "Compatibility Profile Context" s = true
  · exact .inr ⟨GLParser.parse_compatability_profile_context s, by simp [GLParser.parse, h1]⟩
  rw [Bool.not_eq_true] at h1
  by_cases h2 : hasSub "Mesa" s = true
  · exact .inr ⟨GLParser.parse_mesa s, by simp [GLParser.parse, h1, h2]⟩
  rw [Bool.not_eq_true] at h2
  by_cases h3 : hasSub "NVIDIA" s = true
  · exact .inr ⟨GLParser.parse_nvidia s, by simp [GLParser.parse, h1, h2, h3]⟩
  rw [Bool.not_eq_true] at h3
  by_cases h4 : hasSub "INTEL" s = true
  · exact .inr ⟨GLParser.parse_intel s, by simp [GLParser.parse, h1, h2, h3, h4]⟩
  rw [Bool.not_eq_true] at h4
  by_cases h5 : hasSub "Build" s = true
  · exact .inr ⟨GLParser.parse_build_version s, by simp [GLParser.parse, h1, h2, h3, h4, h5]⟩
  rw [Bool.not_eq_true] at h5
  cases ho : GLParser.opengl_version s with
  | some v =>
    exact .inr ⟨⟨some v, some "generic", none⟩,
      by simp [GLParser.parse, h1, h2, h3, h4, h5, ho]⟩
  | none =>
    refine .inl ⟨?_, rfl, ?_⟩
    · simp [keywordFree, h1, h2, h3, h4, h5]
    · simp [GLParser.parse, h1, h2, h3, h4, h5, ho]

/-! ### Claim theorems -/

/-- Claim C8: for every integer input `n`, `classify` succeeds and returns a
Descriptor whose `version` is the decimal text of `n` followed by `".0.0"`,
with `driver` and `driver_version` both absent. -/
theorem claim_int_input_version (n : Int) :
    GLParser.parse (GLInput.int n) =
      .ok ⟨some (toString n ++ ".0.0"), none, none⟩ := rfl

/-- Claim C1: `classify` dispatches by the first successful case-sensitive,
unanchored substring check, tested in the fixed order "Compatibility Profile
Context", "Mesa", "NVIDIA", "INTEL", "Build"; the resulting Descriptor's
`driver` field is the family of the earliest keyword present in that order
(so a string containing both "Mesa" and "NVIDIA" yields `driver = "mesa"`). -/
theorem claim_dispatch_first_keyword (s : String) :
    (hasSub "Compatibility Profile Context" s = true →
      GLParser.parse (GLInput.str s) = .ok (GLParser.parse_compatability_profile_context s) ∧
      (GLParser.parse_compatability_profile_context s).driver = some "compat") ∧
    (hasSub "Compatibility Profile Context" s = false → hasSub "Mesa" s = true →
      GLParser.parse (GLInput.str s) = .ok (GLParser.parse_mesa s) ∧
      (GLParser.parse_mesa s).driver = some "mesa") ∧
    (hasSub "Compatibility Profile Context" s = false → hasSub "Mesa" s = false →
      hasSub "NVIDIA" s = true →
      GLParser.parse (GLInput.str s) = .ok (GLParser.parse_nvidia s) ∧
      (GLParser.parse_nvidia s).driver = some "nvidia") ∧
    (hasSub "Compatibility Profile Context" s = false → hasSub "Mesa" s = false →
      hasSub "NVIDIA" s = false → hasSub "INTEL" s = true →
      GLParser.parse (GLInput.str s) = .ok (GLParser.parse_intel s) ∧
      (GLParser.parse_intel s).driver = some "intel") ∧
    (hasSub "Compatibility Profile Context" s = false → hasSub "Mesa" s = false →
      hasSub "NVIDIA" s = false → hasSub "INTEL" s = false → hasSub "Build" s = true →
      GLParser.parse (GLInput.str s) = .ok (GLParser.parse_build_version s) ∧
      (GLParser.parse_build_version s).driver = some "build") := by
  refine ⟨fun h1 => ⟨?_, rfl⟩, fun h1 h2 => ⟨?_, rfl⟩, fun h1 h2 h3 => ⟨?_, rfl⟩,
    fun h1 h2 h3 h4 => ⟨?_, rfl⟩, fun h1 h2 h3 h4 h5 => ⟨?_, rfl⟩⟩
  · simp [GLParser.parse, h1]
  · simp [GLParser.parse, h1, h2]
  · simp [GLParser.parse, h1, h2, h3]
  · simp [GLParser.parse, h1, h2, h3, h4]
  · simp [GLParser.parse, h1, h2, h3, h4, h5]

/-- Witness for C1: a string containing both "Mesa" and "NVIDIA" is
dispatched to the Mesa matcher, whose `driver` is `"mesa"`. -/
theorem claim_dispatch_first_keyword_witness :
    GLParser.parse (GLInput.str "Mesa NVIDIA") = .ok (GLParser.parse_mesa "Mesa NVIDIA") ∧
    (GLParser.parse_mesa "Mesa NVIDIA").driver = some "mesa" :=
  (claim_dispatch_first_keyword "Mesa NVIDIA").2.1 (by decide) (by decide)

/-- Claim C2: on a string with none of the five family keywords, `classify`
returns a generic Descriptor when the `MAJOR.MINOR[.PATCH]` pattern matches,
and otherwise fails with the unrecognized-format error carrying the original
string; moreover `classify` fails in no other case (every failure comes from
a keyword-free string with no version pattern). -/
theorem claim_unrecognized_format :
    (∀ (s : String) (v : String), keywordFree s = true →
      GLParser.opengl_version s = some v →
      GLParser.parse (GLInput.str s) = .ok ⟨some v, some "generic", none⟩) ∧
    (∀ s : String, keywordFree s = true →
      GLParser.opengl_version s = none →
      GLParser.parse (GLInput.str s) =
        .error (.notImplementedError ("Unimplemented for " ++ s))) ∧
    (∀ (x : GLInput) (e : PyError), GLParser.parse x = .error e →
      ∃ s : String, x = GLInput.str s ∧ keywordFree s = true ∧
        GLParser.opengl_version s = none ∧
        e = .notImplementedError ("Unimplemented for " ++ s)) := by
  have hkw : ∀ s : String, keywordFree s = true →
      hasSub "Compatibility Profile Context" s = false ∧ hasSub "Mesa" s = false ∧
      hasSub "NVIDIA" s = false ∧ hasSub "INTEL" s = false ∧ hasSub "Build" s = false := by
    intro s h
    simp only [keywordFree, Bool.not_eq_true', Bool.or_eq_false_iff] at h
    exact ⟨h.1.1.1.1, h.1.1.1.2, h.1.1.2, h.1.2, h.2⟩
  refine ⟨?_, ?_, ?_⟩
  · intro s v hk ho
    obtain ⟨h1, h2, h3, h4, h5⟩ := hkw s hk
    simp [GLParser.parse, h1, h2, h3, h4, h5, ho]
  · intro s hk ho
    obtain ⟨h1, h2, h3, h4, h5⟩ := hkw s hk
    simp [GLParser.parse, h1, h2, h3, h4, h5, ho]
  · intro x e he
    cases x with
    | int n => exact absurd he (by simp [GLParser.parse])
    | float f => exact absurd he (by simp [GLParser.parse])
    | str s =>
      rcases parse_str_cases s with ⟨hk, ho, herr⟩ | ⟨d, hok⟩
      · rw [herr] at he
        refine ⟨s, rfl, hk, ho, ?_⟩
        exact (Except.error.inj he).symm
      · rw [hok] at he
        exact absurd he (by simp)

/-- Witness for C2: "zzz" has no keyword and no version pattern, so
classification fails with the unrecognized-format error. -/
theorem claim_unrecognized_format_witness :
    GLParser.parse (GLInput.str "zzz") =
      .error (.notImplementedError ("Unimplemented for " ++ "zzz")) :=
  claim_unrecognized_format.2.1 "zzz" (by decide) (by decide)

/-- Claim C3: a string containing a family keyword never makes `classify`
fail: the result is a Descriptor whose `driver` is exactly the dispatched
family's name, and when the family-specific pattern matches nowhere in the
string the `driver_version` is absent rather than an error being raised. -/
theorem claim_family_never_fails :
    (∀ s : String, keywordFree s = false → ∃ d, GLParser.parse (GLInput.str s) = .ok d) ∧
    (∀ s : String, hasSub "Compatibility Profile Context" s = true →
      ∃ d, GLParser.parse (GLInput.str s) = .ok d ∧ d.driver = some "compat" ∧
        (searchFirst compatMatchAt s.toList = none → d.driver_version = none)) ∧
    (∀ s : String, hasSub "Compatibility Profile Context" s = false →
      hasSub "Mesa" s = true →
      ∃ d, GLParser.parse (GLInput.str s) = .ok d ∧ d.driver = some "mesa" ∧
        (searchFirst mesaMatchAt s.toList = none → d.driver_version = none)) ∧
    (∀ s : String, hasSub "Compatibility Profile Context" s = false →
      hasSub "Mesa" s = false → hasSub "NVIDIA" s = true →
      ∃ d, GLParser.parse (GLInput.str s) = .ok d ∧ d.driver = some "nvidia" ∧
        (searchFirst nvidiaMatchAt s.toList = none → d.driver_version = none)) ∧
    (∀ s : String, hasSub "Compatibility Profile Context" s = false →
      hasSub "Mesa" s = false → hasSub "NVIDIA" s = false → hasSub "INTEL" s = true →
      ∃ d, GLParser.parse (GLInput.str s) = .ok d ∧ d.driver = some "intel" ∧
        (searchFirst intelMatchAt s.toList = none → d.driver_version = none)) ∧
    (∀ s : String, hasSub "Compatibility Profile Context" s = false →
      hasSub "Mesa" s = false → hasSub "NVIDIA" s = false → hasSub "INTEL" s = false →
      hasSub "Build" s = true →
      ∃ d, GLParser.parse (GLInput.str s) = .ok d ∧ d.driver = some "build" ∧
        (searchFirst buildMatchAt s.toList = none → d.driver_version = none)) := by
  refine ⟨?_, ?_, ?_, ?_, ?_, ?_⟩
  · intro s hk
    rcases parse_str_cases s with ⟨hk2, _, _⟩ | hok
    · rw [hk2] at hk
      exact absurd hk (by simp)
    · exact hok
  · intro s h1
    refine ⟨GLParser.parse_compatability_profile_context s, by simp [GLParser.parse, h1], rfl, ?_⟩
    intro hnone
    replace hnone : searchFirst compatMatchAt s.data = none := hnone
    simp [GLParser.parse_compatability_profile_context, hnone]
  · intro s h1 h2
    refine ⟨GLParser.parse_mesa s, by simp [GLParser.parse, h1, h2], rfl, ?_⟩
    intro hnone
    replace hnone : searchFirst mesaMatchAt s.data = none := hnone
    simp [GLParser.parse_mesa, hnone]
  · intro s h1 h2 h3
    refine ⟨GLParser.parse_nvidia s, by simp [GLParser.parse, h1, h2, h3], rfl, ?_⟩
    intro hnone
    replace hnone : searchFirst nvidiaMatchAt s.data = none := hnone
    simp [GLParser.parse_nvidia, hnone]
  · intro s h1 h2 h3 h4
    refine ⟨GLParser.parse_intel s, by simp [GLParser.parse, h1, h2, h3, h4], rfl, ?_⟩
    intro hnone
    replace hnone : searchFirst intelMatchAt s.data = none := hnone
    simp [GLParser.parse_intel, hnone]
  · intro s h1 h2 h3 h4 h5
    refine ⟨GLParser.parse_build_version s, by simp [GLParser.parse, h1, h2, h3, h4, h5], rfl, ?_⟩
    intro hnone
    replace hnone : searchFirst buildMatchAt s.data = none := hnone
    simp [GLParser.parse_build_version, hnone]

/-- Witness for C3: "Mesa" alone dispatches to the Mesa matcher, succeeds,
and (the three-component pattern matching nowhere) leaves `driver_version`
absent. -/
theorem claim_family_never_fails_witness :
    ∃ d, GLParser.parse (GLInput.str "Mesa") = .ok d ∧ d.driver = some "mesa" ∧
      (searchFirst mesaMatchAt "Mesa".toList = none → d.driver_version = none) :=
  claim_family_never_fails.2.2.1 "Mesa" (by decide) (by decide)

/-- Claim C4: every family matcher fills `version` by the same shared
search — the leftmost `MAJOR.MINOR[.PATCH]` match over the whole input
string — and `version` is absent exactly when that pattern matches at no
position of the string. -/
theorem claim_shared_version_extraction :
    (∀ s : String,
      (GLParser.parse_compatability_profile_context s).version = GLParser.opengl_version s ∧
      (GLParser.parse_mesa s).version = GLParser.opengl_version s ∧
      (GLParser.parse_nvidia s).version = GLParser.opengl_version s ∧
      (GLParser.parse_intel s).version = GLParser.opengl_version s ∧
      (GLParser.parse_build_version s).version = GLParser.opengl_version s) ∧
    (∀ (s : String) (i : Nat) (r : List Char),
      openglMatchAt (s.toList.drop i) = some r →
      (∀ j, j < i → openglMatchAt (s.toList.drop j) = none) →
      GLParser.opengl_version s = some (String.mk r)) ∧
    (∀ s : String, GLParser.opengl_version s = none ↔
      ∀ i, openglMatchAt (s.toList.drop i) = none) := by
  refine ⟨fun s => ⟨rfl, rfl, rfl, rfl, rfl⟩, ?_, ?_⟩
  · intro s i r hm hleft
    have hs := searchFirst_eq_of_first openglMatchAt s.toList i r hm hleft
    show (searchFirst openglMatchAt s.toList).map String.mk = some (String.mk r)
    rw [hs]
    rfl
  · intro s
    rw [GLParser.opengl_version, Option.map_eq_none']
    exact searchFirst_eq_none_iff openglMatchAt s.toList

/-- Witness for C4: the leftmost match in "1.2" starts at position 0 and the
extracted renderer version is "1.2". -/
theorem claim_shared_version_extraction_witness :
    GLParser.opengl_version "1.2" = some (String.mk ['1', '.', '2']) :=
  claim_shared_version_extraction.2.1 "1.2" 0 ['1', '.', '2'] (by decide)
    (fun j hj => absurd hj (Nat.not_lt_zero j))

/-- The field properties of any family-matcher Descriptor needed by the
invariant claim. -/
lemma family_desc_props (d : OpenGLDescriptor) (s fam : String)
    (m : List Char → Option (List Char))
    (hd : d = ⟨GLParser.opengl_version s, some fam, (searchFirst m s.toList).map String.mk⟩)
    (hfam : fam ≠ "") (hm : ∀ t r, m t = some r → r ≠ []) :
    (d.driver_version.isSome = true → d.driver.isSome = true) ∧
    d.version ≠ some "" ∧ d.driver ≠ some "" ∧ d.driver_version ≠ some "" := by
  subst hd
  exact ⟨fun _ => rfl, opengl_version_ne_empty s, by simpa using hfam,
    search_map_ne_empty m hm s.toList⟩

/-- Claim C5: whenever `classify` succeeds, `driver_version` is set only if
`driver` is set, and no optional field is ever the empty string — each field
is an extracted value or explicitly absent. -/
theorem claim_descriptor_invariants (x : GLInput) (d : OpenGLDescriptor)
    (h : GLParser.parse x = .ok d) :
    (d.driver_version.isSome = true → d.driver.isSome = true) ∧
    d.version ≠ some "" ∧ d.driver ≠ some "" ∧ d.driver_version ≠ some "" := by
  cases x with
  | int n =>
    simp only [GLParser.parse, Except.ok.injEq] at h
    subst h
    refine ⟨fun hh => hh, ?_, by simp, by simp⟩
    simp only [ne_eq, Option.some.injEq]
    exact append_ne_empty (toString n) ".0.0" (by decide)
  | float f =>
    simp only [GLParser.parse, Except.ok.injEq] at h
    subst h
    exact ⟨fun hh => hh, by simpa using f.text_ne, by simp, by simp⟩
  | str s =>
    simp only [GLParser.parse] at h
    split_ifs at h with h1 h2 h3 h4 h5
    · exact family_desc_props d s "compat" compatMatchAt
        (Except.ok.inj h).symm (by decide) compatMatchAt_ne_nil
    · exact family_desc_props d s "mesa" mesaMatchAt
        (Except.ok.inj h).symm (by decide) mesaMatchAt_ne_nil
    · exact family_desc_props d s "nvidia" nvidiaMatchAt
        (Except.ok.inj h).symm (by decide) nvidiaMatchAt_ne_nil
    · exact family_desc_props d s "intel" intelMatchAt
        (Except.ok.inj h).symm (by decide) intelMatchAt_ne_nil
    · exact family_desc_props d s "build" buildMatchAt
        (Except.ok.inj h).symm (by decide) buildMatchAt_ne_nil
    · split at h
      · rename_i v heq
        have hd : (⟨some v, some "generic", none⟩ : OpenGLDescriptor) = d :=
          Except.ok.inj h
        subst hd
        refine ⟨fun _ => rfl, ?_, ?_, by simp⟩
        · have hv := opengl_version_ne_empty s
          rw [heq] at hv
          exact hv
        · intro hh
          exact absurd (Option.some.inj hh) (by decide)
      · exact absurd h (by simp)

/-- Witness for C5: the Descriptor classified from "Mesa" satisfies all the
invariant's conjuncts. -/
theorem claim_descriptor_invariants_witness :
    ((⟨none, some "mesa", none⟩ : OpenGLDescriptor).driver_version.isSome = true →
      (⟨none, some "mesa", none⟩ : OpenGLDescriptor).driver.isSome = true) ∧
    (⟨none, some "mesa", none⟩ : OpenGLDescriptor).version ≠ some "" ∧
    (⟨none, some "mesa", none⟩ : OpenGLDescriptor).driver ≠ some "" ∧
    (⟨none, some "mesa", none⟩ : OpenGLDescriptor).driver_version ≠ some "" :=
  claim_descriptor_invariants (GLInput.str "Mesa") ⟨none, some "mesa", none⟩ rfl

/-- Claim C9: the Mesa matcher's `driver_version` is the leftmost
three-component match anywhere in the string — with no requirement that it
follow the "Mesa" token — so a three-component renderer version occurring
before the Mesa version is picked up instead ("4.5.0 ... Mesa 21.2" gives
`driver_version = "4.5.0"`); the compat matcher behaves the same way for its
four-component pattern. -/
theorem claim_mesa_driver_version_leftmost :
    (∀ (s : String) (i : Nat) (r : List Char),
      mesaMatchAt (s.toList.drop i) = some r →
      (∀ j, j < i → mesaMatchAt (s.toList.drop j) = none) →
      (GLParser.parse_mesa s).driver_version = some (String.mk r)) ∧
    (∀ (s : String) (i : Nat) (r : List Char),
      compatMatchAt (s.toList.drop i) = some r →
      (∀ j, j < i → compatMatchAt (s.toList.drop j) = none) →
      (GLParser.parse_compatability_profile_context s).driver_version =
        some (String.mk r)) ∧
    GLParser.parse (GLInput.str "4.5.0 (Core Profile) Mesa 21.2") =
      .ok ⟨some "4.5.0", some "mesa", some "4.5.0"⟩ := by
  refine ⟨?_, ?_, rfl⟩
  · intro s i r hm hleft
    have hs := searchFirst_eq_of_first mesaMatchAt s.toList i r hm hleft
    show (searchFirst mesaMatchAt s.toList).map String.mk = some (String.mk r)
    rw [hs]
    rfl
  · intro s i r hm hleft
    have hs := searchFirst_eq_of_first compatMatchAt s.toList i r hm hleft
    show (searchFirst compatMatchAt s.toList).map String.mk = some (String.mk r)
    rw [hs]
    rfl

/-- Witness for C9: in "ab 1.2.3" the leftmost three-component match starts
at position 3, so the Mesa matcher reports it as `driver_version`. -/
theorem claim_mesa_driver_version_leftmost_witness :
    (GLParser.parse_mesa "ab 1.2.3").driver_version = some "1.2.3" :=
  claim_mesa_driver_version_leftmost.1 "ab 1.2.3" 3 "1.2.3".toList
    (by decide) (by decide)

/-- Claim C10: when the only version-shaped text is the driver version's own
digits, `version` is not absent: the shared renderer-version search matches
the first three numeric components of the driver version (e.g.
"Compatibility Profile Context 20.3.4.5" has `version = "20.3.4"`). -/
theorem claim_version_from_driver_digits :
    GLParser.parse (GLInput.str "Compatibility Profile Context 20.3.4.5") =
      .ok ⟨some "20.3.4", some "compat", some "20.3.4.5"⟩ ∧
    (∀ (s : String) (i : Nat) (d1 d2 d3 rest : List Char),
      s.toList.drop i = d1 ++ '.' :: (d2 ++ '.' :: (d3 ++ rest)) →
      d1 ≠ [] → (∀ c ∈ d1, c.isDigit = true) →
      d2 ≠ [] → (∀ c ∈ d2, c.isDigit = true) →
      d3 ≠ [] → (∀ c ∈ d3, c.isDigit = true) →
      nondigitHead rest = true →
      (∀ j, j < i → openglMatchAt (s.toList.drop j) = none) →
      (GLParser.parse_compatability_profile_context s).version =
        some (String.mk (d1 ++ '.' :: (d2 ++ '.' :: d3)))) := by
  refine ⟨rfl, ?_⟩
  intro s i d1 d2 d3 rest hdrop h1 ha1 h2 ha2 h3 ha3 hrest hleft
  have hopen : openglMatchAt (s.toList.drop i) = some (d1 ++ '.' :: (d2 ++ '.' :: d3)) := by
    rw [hdrop]
    exact openglMatchAt_three d1 d2 d3 rest h1 ha1 h2 ha2 h3 ha3 hrest
  have hs := searchFirst_eq_of_first openglMatchAt s.toList i _ hopen hleft
  show (searchFirst openglMatchAt s.toList).map String.mk = _
  rw [hs]
  rfl

/-- Witness for C10: in "x 20.3.4.5" the four-component driver-version text
begins at position 2 and the shared search yields its first three
components. -/
theorem claim_version_from_driver_digits_witness :
    (GLParser.parse_compatability_profile_context "x 20.3.4.5").version =
      some "20.3.4" :=
  claim_version_from_driver_digits.2 "x 20.3.4.5" 2
    "20".toList "3".toList "4".toList ".5".toList
    (by decide) (by decide) (by decide) (by decide) (by decide)
    (by decide) (by decide) (by decide) (by decide)

/-- Counterexample to C6 as stated: "Mono" contains the Mono marker, yet
`parse_runtime` neither returns a Runtime (there is no 2nd
whitespace-delimited token) nor fails with the invalid-runtime `ValueError`:
the `value.split()[1]` subscript raises `IndexError`. -/
theorem claim_parse_runtime_counterexample :
    hasSub "Mono" "Mono" = true ∧
    parse_runtime (some "Mono") = .error PyError.indexError := ⟨rfl, rfl⟩

/-- Claim C6 amended: `parse_runtime(None)` is `None`; a string containing
"Mono" yields `Runtime("mono", 2nd token)` when a 2nd whitespace-delimited
token exists and raises `IndexError` otherwise; else a string containing
".NET" yields `Runtime(".net", 3rd token)` when a 3rd token exists and
raises `IndexError` otherwise; any other string fails with the
invalid-runtime `ValueError` naming the original string. -/
theorem claim_parse_runtime_amended :
    parse_runtime none = .ok none ∧
    (∀ s : String, hasSub "Mono" s = true →
      (∀ v, (splitWs s.toList).get? 1 = some v →
        parse_runtime (some s) = .ok (some ⟨"mono", String.mk v⟩)) ∧
      ((splitWs s.toList).get? 1 = none →
        parse_runtime (some s) = .error .indexError)) ∧
    (∀ s : String, hasSub "Mono" s = false → hasSub ".NET" s = true →
      (∀ v, (splitWs s.toList).get? 2 = some v →
        parse_runtime (some s) = .ok (some ⟨".net", String.mk v⟩)) ∧
      ((splitWs s.toList).get? 2 = none →
        parse_runtime (some s) = .error .indexError)) ∧
    (∀ s : String, hasSub "Mono" s = false → hasSub ".NET" s = false →
      parse_runtime (some s) = .error (.valueError ("Invalid runtime value: " ++ s))) := by
  refine ⟨rfl, ?_, ?_, ?_⟩
  · intro s h1
    have hr : parse_runtime (some s) = (parse_mono_runtime s).map some := by
      simp [parse_runtime, h1]
    constructor
    · intro v hv
      rw [hr]
      unfold parse_mono_runtime
      rw [hv]
      rfl
    · intro hv
      rw [hr]
      unfold parse_mono_runtime
      rw [hv]
      rfl
  · intro s h1 h2
    have hr : parse_runtime (some s) = (parse_dotnet_runtime s).map some := by
      simp [parse_runtime, h1, h2]
    constructor
    · intro v hv
      rw [hr]
      unfold parse_dotnet_runtime
      rw [hv]
      rfl
    · intro hv
      rw [hr]
      unfold parse_dotnet_runtime
      rw [hv]
      rfl
  · intro s h1 h2
    simp [parse_runtime, h1, h2]

/-- Witness for the amended C6: a well-formed Mono string gives its 2nd
token as the version. -/
theorem claim_parse_runtime_amended_witness :
    parse_runtime (some "Mono 6.12.0.122 (tarball)") =
      .ok (some ⟨"mono", "6.12.0.122"⟩) :=
  (claim_parse_runtime_amended.2.1 "Mono 6.12.0.122 (tarball)" (by decide)).1
    "6.12.0.122".toList (by decide)

/-- The generator's observable behaviour equals the spec-side description. -/
lemma parse_gl_versions_eq_spec (l : List GLInput) :
    parse_gl_versions l = classify_batch_spec l := by
  induction l with
  | nil => rfl
  | cons x rest ih =>
    cases hp : GLParser.parse x with
    | ok d =>
      have hok : parseOk x = true := by simp [parseOk, hp]
      simp [parse_gl_versions, classify_batch_spec, hp, hok, okPart, ih,
        List.takeWhile_cons, List.dropWhile_cons]
    | error e =>
      have hok : parseOk x = false := by simp [parseOk, hp]
      simp [parse_gl_versions, classify_batch_spec, hp, hok,
        List.takeWhile_cons, List.dropWhile_cons]

/-- On an all-successful input list the generator yields exactly the
classifier's outputs, in order, with no terminating error. -/
lemma parse_gl_versions_all_ok (l : List GLInput) :
    (∀ x ∈ l, parseOk x = true) →
    (parse_gl_versions l).2 = none ∧
    (parse_gl_versions l).1.map Except.ok = l.map GLParser.parse := by
  induction l with
  | nil => exact fun _ => ⟨rfl, rfl⟩
  | cons x rest ih =>
    intro h
    have hx : parseOk x = true := h x (List.mem_cons_self x rest)
    obtain ⟨d, hd⟩ : ∃ d, GLParser.parse x = .ok d := by
      revert hx
      unfold parseOk
      cases GLParser.parse x with
      | ok d => exact fun _ => ⟨d, rfl⟩
      | error e => intro hx; simp at hx
    have ihh := ih (fun y hy => h y (List.mem_cons_of_mem x hy))
    constructor
    · simp [parse_gl_versions, hd, ihh.1]
    · simp [parse_gl_versions, hd, ihh.2]

/-- Claim C7: on every finite input sequence the batch driver produces, in
input order, exactly the classification of each element up to the first
failure, whose error terminates production at that element's own position —
equivalently, its observable behaviour refines the spec's per-element
description, and on all-successful inputs it yields one Descriptor per
input, each equal to the classifier's result. -/
theorem claim_batch_matches_classifier :
    (∀ l : List GLInput, parse_gl_versions l = classify_batch_spec l) ∧
    (∀ l : List GLInput, (∀ x ∈ l, parseOk x = true) →
      (parse_gl_versions l).2 = none ∧
      (parse_gl_versions l).1.map Except.ok = l.map GLParser.parse) :=
  ⟨parse_gl_versions_eq_spec, parse_gl_versions_all_ok⟩

/-- Witness for C7: a singleton all-successful batch. -/
theorem claim_batch_matches_classifier_witness :
    (parse_gl_versions [GLInput.str "Mesa"]).2 = none ∧
    (parse_gl_versions [GLInput.str "Mesa"]).1.map Except.ok =
      [GLInput.str "Mesa"].map GLParser.parse :=
  claim_batch_matches_classifier.2 [GLInput.str "Mesa"] (by
    intro x hx
    rw [List.mem_singleton] at hx
    subst hx
    rfl)
